import Mathlib

/-!
Verification of the RealTime-Canva collaborative canvas.

Server side (src/Server/Server.js): the Socket.IO event handlers
(`join-room`, `cursor-move`, `drawing`, `canvas-state`,
`request-canvas-state`, `clear-canvas`, `disconnect`), the
`RoomManager` (rooms module) and the `DrawingStateManager`
(drawing-state module) are embedded as pure functions over a `World`
state.  JS `Map`s become association lists with unique keys
(lookup/replace-first, delete-all), JS `Set`s of client objects become
lists, `Date.now ()` becomes an explicit `now : Nat` argument, and
`setTimeout` becomes an explicit pending-timer record fired before the
next processed event whose timestamp passes the deadline.

Client side (src/Client/canvas.js): the `CanvasManager` pointer
handlers, undo/redo history and the remote-layer compositor are
embedded as a state machine over `CanvasM`; the raster canvases are
represented as lists of stroke segments, and `toDataURL` snapshots as
the segment-list value itself.
-/

/-! ## Association lists (embedding of JS `Map`) -/

def alookup {α : Type} : List (String × α) → String → Option α
  | [], _ => none
  | (k, v) :: t, k2 => if k = k2 then some v else alookup t k2

def aset {α : Type} : List (String × α) → String → α → List (String × α)
  | [], k, v => [(k, v)]
  | (k1, v1) :: t, k, v => if k1 = k then (k, v) :: t else (k1, v1) :: aset t k v

def aeraseKey {α : Type} (l : List (String × α)) (k : String) : List (String × α) :=
  l.filter (fun p => p.1 ≠ k)

/-! ## Server data model -/

/-- A stored canvas snapshot: `DrawingStateManager` stores
`{canvasData, timestamp, version}` per room. -/
structure CanvasState where
  canvasData : String
  timestamp : Nat
  version : Nat
  deriving DecidableEq, Repr

/-- `DrawingStateManager.saveState`: stores the payload with
`version = (states.get(roomId)?.version || 0) + 1`. -/
def saveState (states : List (String × CanvasState)) (roomId canvasData : String)
    (now : Nat) : List (String × CanvasState) :=
  aset states roomId
    ⟨canvasData, now, ((alookup states roomId).map CanvasState.version).getD 0 + 1⟩

/-- `DrawingStateManager.getState`. -/
def getState (states : List (String × CanvasState)) (roomId : String) :
    Option CanvasState :=
  alookup states roomId

/-- `DrawingStateManager.clearState`: `states.delete(roomId)`. -/
def clearState (states : List (String × CanvasState)) (roomId : String) :
    List (String × CanvasState) :=
  aeraseKey states roomId

/-- A member record as stored in `room.clients`
(`{userId, socketId, username, color, cursorPos}`). -/
structure RClient where
  userId : String
  socketId : String
  username : String
  color : String
  cursorPos : Option String
  deriving DecidableEq, Repr

/-- A `RoomManager` room object.  `objId` stands for JS object identity:
`getRoom` allocates a fresh one when it creates a room, so "the same
Room object" means "the same `objId`". -/
structure RoomObj where
  objId : Nat
  clients : List RClient
  canvasState : Option String
  createdAt : Nat
  lastActivity : Nat
  deriving DecidableEq, Repr

/-- A pending `setTimeout` scheduled by `RoomManager.removeClient` when a
room becomes empty; the callback captured the room object (`objId`) and
fires 60000 ms later. -/
structure RoomTimer where
  roomId : String
  objId : Nat
  fireAt : Nat
  deriving DecidableEq, Repr

/-- Per-connection closure variables of the `io.on('connection')`
handler: `currentRoom`, `currentUserId`, `currentUsername`. -/
structure ConnState where
  currentRoom : Option String
  currentUserId : Option String
  currentUsername : Option String
  deriving DecidableEq, Repr

/-- The whole server state: `RoomManager.rooms`,
`DrawingStateManager.states`, the `roomUserCounters` map, pending
empty-room timers, the per-socket closure variables, and the Socket.IO
room membership of each socket (`socket.join`).  `detached` records the
client list of every room object removed from the map (JS: an object no
longer reachable through `rooms` but still held by a timer closure; all
mutation goes through the map, so such a list is frozen at removal). -/
structure World where
  rooms : List (String × RoomObj)
  nextObj : Nat
  states : List (String × CanvasState)
  counters : List (String × Nat)
  timers : List RoomTimer
  conns : List (String × ConnState)
  sioRooms : List (String × List String)
  detached : List (Nat × List RClient)
  deriving DecidableEq, Repr

def World.init : World := ⟨[], 0, [], [], [], [], [], []⟩

/-- Lookup in a `Nat`-keyed association list (the detached-objects
record). -/
def nlookup {α : Type} : List (Nat × α) → Nat → Option α
  | [], _ => none
  | (k, v) :: t, k2 => if k = k2 then some v else nlookup t k2

/-- JS truthiness of the `currentRoom` closure variable: `null` (before
any join) and the empty string (a join into the room named "") are both
falsy, so `if (!currentRoom) return` drops either. -/
def truthyStr : Option String → Option String
  | none => none
  | some s => if s = "" then none else some s

def defaultConn : ConnState := ⟨none, none, none⟩

def connOf (w : World) (sock : String) : ConnState :=
  (alookup w.conns sock).getD defaultConn

def sioOf (w : World) (sock : String) : List String :=
  (alookup w.sioRooms sock).getD []

/-! ## Emissions (Socket.IO sends) -/

/-- Recipient set of a Socket.IO emit: `socket.emit` (sender only),
`socket.to(r).emit` (room members except sender), `io.to(r).emit`
(all room members). -/
inductive Target where
  | senderOnly : Target
  | roomExceptSender : String → Target
  | roomAll : String → Target
  deriving DecidableEq, Repr

structure UserInfo where
  userId : String
  username : String
  color : String
  deriving DecidableEq, Repr

/-- The forwarded drawing object `{...data, userId: currentUserId,
socketId: socket.id}`: the spread copies the payload fields and the two
trailing properties override any sender-supplied `userId`/`socketId`. -/
structure FwdDraw where
  dtype : String
  pos : String
  mode : String
  color : String
  width : Nat
  userId : Option String
  socketId : String
  deriving DecidableEq, Repr

inductive EPayload where
  | usernameAssigned : String → EPayload
  | usersUpdate : List UserInfo → EPayload
  | canvasStateFull : String → Nat → EPayload
  | canvasStateFwd : String → Option String → EPayload
  | userJoined : String → String → String → String → EPayload
  | drawingFwd : FwdDraw → EPayload
  | cursorFwd : String → String → EPayload
  | clearFwd : Option String → EPayload
  | userLeft : String → String → String → EPayload
  deriving DecidableEq, Repr

structure Emission where
  sender : String
  target : Target
  event : String
  payload : EPayload
  deriving DecidableEq, Repr

/-- Whether connection `c` receives emission `em`, given the Socket.IO
membership in `w`. -/
def deliveredTo (w : World) (em : Emission) (c : String) : Bool :=
  match em.target with
  | Target.senderOnly => c = em.sender
  | Target.roomExceptSender r => c ≠ em.sender && (sioOf w c).contains r
  | Target.roomAll r => (sioOf w c).contains r

/-! ## Inbound message payloads -/

structure JoinPayload where
  roomId : String
  userId : String
  username : String
  color : String
  deriving DecidableEq, Repr

/-- Client-sent drawing data `{type, pos, mode, color, width}` plus the
sender-supplied `userId`/`socketId` fields the server overrides. -/
structure DrawPayload where
  dtype : String
  pos : String
  mode : String
  color : String
  width : Nat
  userId : Option String
  socketId : Option String
  deriving DecidableEq, Repr

structure CursorPayload where
  roomId : String
  userId : String
  pos : String
  deriving DecidableEq, Repr

structure CanvasStatePayload where
  roomId : String
  canvasData : String
  deriving DecidableEq, Repr

/-! ## Event handlers (from `io.on('connection')` in Server.js) -/

/-- `socket.on('join-room')`. -/
def handleJoin (w : World) (now : Nat) (sock : String) (p : JoinPayload) :
    World × List Emission :=
  let conn0 := connOf w sock
  let counters0 := if (alookup w.counters p.roomId).isNone
                   then aset w.counters p.roomId 1 else w.counters
  let n := (alookup counters0 p.roomId).getD 1
  let uname := "User" ++ toString n
  let counters1 := aset counters0 p.roomId (n + 1)
  let conn1 : ConnState := ⟨some p.roomId, some p.userId, some uname⟩
  let _ := conn0
  let cur := sioOf w sock
  let sio := aset w.sioRooms sock (if cur.contains p.roomId then cur else p.roomId :: cur)
  let roomPair : RoomObj × Nat :=
    match alookup w.rooms p.roomId with
    | some r => (r, w.nextObj)
    | none => (⟨w.nextObj, [], none, now, now⟩, w.nextObj + 1)
  let room0 := roomPair.1
  let room1 : RoomObj :=
    { room0 with clients := room0.clients ++ [⟨p.userId, sock, uname, p.color, none⟩],
                 lastActivity := now }
  let rooms1 := aset w.rooms p.roomId room1
  let users : List UserInfo := room1.clients.map (fun c => ⟨c.userId, c.username, c.color⟩)
  let ems0 : List Emission :=
    [⟨sock, Target.senderOnly, "username-assigned", EPayload.usernameAssigned uname⟩,
     ⟨sock, Target.senderOnly, "users-update",
      EPayload.usersUpdate (users.filter (fun u => u.userId ≠ p.userId))⟩]
  let ems1 := ems0 ++
    (match alookup w.states p.roomId with
     | some cs => [⟨sock, Target.senderOnly, "canvas-state",
                   EPayload.canvasStateFull cs.canvasData cs.version⟩]
     | none => [])
  let ems2 := ems1 ++
    [⟨sock, Target.roomExceptSender p.roomId, "user-joined",
      EPayload.userJoined p.userId uname p.color sock⟩]
  ({ w with rooms := rooms1, nextObj := roomPair.2, counters := counters1,
            conns := aset w.conns sock conn1, sioRooms := sio }, ems2)

/-- `RoomManager.updateCursorPosition` inner loop: set `cursorPos` on the
first client whose `userId` matches. -/
def updateCursorClients : List RClient → String → String → List RClient
  | [], _, _ => []
  | c :: t, uid, pos =>
    if c.userId = uid then { c with cursorPos := some pos } :: t
    else c :: updateCursorClients t uid pos

/-- `socket.on('cursor-move')`: guarded by the falsy test
`if (!currentRoom) return`, but both the cursor update and the
broadcast use the payload `roomId`. -/
def handleCursorMove (w : World) (sock : String) (p : CursorPayload) :
    World × List Emission :=
  match truthyStr (connOf w sock).currentRoom with
  | none => (w, [])
  | some _ =>
    let rooms1 :=
      match alookup w.rooms p.roomId with
      | none => w.rooms
      | some r => aset w.rooms p.roomId
          { r with clients := updateCursorClients r.clients p.userId p.pos }
    ({ w with rooms := rooms1 },
     [⟨sock, Target.roomExceptSender p.roomId, "cursor-move",
       EPayload.cursorFwd p.userId p.pos⟩])

/-- `socket.on('drawing')`: guarded by the falsy test
`if (!currentRoom) return` (so a `currentRoom` of `""` is also
dropped); broadcasts `{...data, userId: currentUserId,
socketId: socket.id}` to `socket.to(currentRoom)`. -/
def handleDrawing (w : World) (sock : String) (d : DrawPayload) :
    World × List Emission :=
  match truthyStr (connOf w sock).currentRoom with
  | none => (w, [])
  | some r =>
    (w, [⟨sock, Target.roomExceptSender r, "drawing",
          EPayload.drawingFwd
            ⟨d.dtype, d.pos, d.mode, d.color, d.width,
             (connOf w sock).currentUserId, sock⟩⟩])

/-- `socket.on('canvas-state')`: no guard; saves under the payload
`roomId` in both managers (`setCanvasState` creates the room if absent)
and broadcasts to `socket.to(roomId)`. -/
def handleCanvasState (w : World) (now : Nat) (sock : String)
    (p : CanvasStatePayload) : World × List Emission :=
  let states1 := saveState w.states p.roomId p.canvasData now
  let roomsPair : List (String × RoomObj) × Nat :=
    match alookup w.rooms p.roomId with
    | some r => (aset w.rooms p.roomId
        { r with canvasState := some p.canvasData, lastActivity := now }, w.nextObj)
    | none => (aset w.rooms p.roomId
        ⟨w.nextObj, [], some p.canvasData, now, now⟩, w.nextObj + 1)
  ({ w with states := states1, rooms := roomsPair.1, nextObj := roomsPair.2 },
   [⟨sock, Target.roomExceptSender p.roomId, "canvas-state",
     EPayload.canvasStateFwd p.canvasData (connOf w sock).currentUserId⟩])

/-- `socket.on('request-canvas-state')`. -/
def handleRequestState (w : World) (sock : String) (roomId : String) :
    World × List Emission :=
  match getState w.states roomId with
  | some cs => (w, [⟨sock, Target.senderOnly, "canvas-state",
                    EPayload.canvasStateFull cs.canvasData cs.version⟩])
  | none => (w, [])

/-- `socket.on('clear-canvas')`: no guard; emits to `io.to(roomId)` (all
members, sender included) and clears the stored state for the payload
`roomId`. -/
def handleClearCanvas (w : World) (sock : String) (roomId : String) :
    World × List Emission :=
  ({ w with states := clearState w.states roomId },
   [⟨sock, Target.roomAll roomId, "clear-canvas",
     EPayload.clearFwd (connOf w sock).currentUserId⟩])

/-- `RoomManager.removeClient` inner loop: remove the first client whose
`socketId` matches, returning it. -/
def removeClientList : List RClient → String → Option RClient × List RClient
  | [], _ => (none, [])
  | c :: t, sock =>
    if c.socketId = sock then (some c, t)
    else
      let r := removeClientList t sock
      (r.1, c :: r.2)

/-- `socket.on('disconnect')`: under the falsy test `if (currentRoom)`,
`removeClient` plus the `user-left` broadcast; when the room becomes
empty a 60000 ms deletion timer is scheduled.  The socket's closure
state and Socket.IO memberships go away with the connection. -/
def handleDisconnect (w : World) (now : Nat) (sock : String) :
    World × List Emission :=
  let wClean := { w with conns := aeraseKey w.conns sock,
                         sioRooms := aeraseKey w.sioRooms sock }
  match truthyStr (connOf w sock).currentRoom with
  | none => (wClean, [])
  | some r =>
    match alookup w.rooms r with
    | none => (wClean, [])
    | some room =>
      let rem := removeClientList room.clients sock
      match rem.1 with
      | none => (wClean, [])
      | some c =>
        let rooms1 := aset w.rooms r { room with clients := rem.2 }
        let timers1 := if rem.2.isEmpty
                       then w.timers ++ [⟨r, room.objId, now + 60000⟩]
                       else w.timers
        ({ wClean with rooms := rooms1, timers := timers1 },
         [⟨sock, Target.roomExceptSender r, "user-left",
           EPayload.userLeft c.userId c.username sock⟩])

/-- The `setTimeout` callback in `removeClient`: re-check
`room.clients.size === 0` on the *captured* room object, then
`this.rooms.delete(roomId)`.  The captured object's clients are the
live map entry's when that entry still holds the same object (same
`objId`), and otherwise the frozen list recorded when the object was
detached (timers are only created for objects then in the map, so a
missing `detached` entry is defaulted to the empty list).  The delete
removes whatever entry currently holds the roomId, recording it in
`detached`. -/
def fireTimer (w : World) (t : RoomTimer) : World :=
  let captured : List RClient :=
    match alookup w.rooms t.roomId with
    | some room =>
      if room.objId = t.objId then room.clients
      else (nlookup w.detached t.objId).getD []
    | none => (nlookup w.detached t.objId).getD []
  if captured.isEmpty then
    match alookup w.rooms t.roomId with
    | some room =>
      { w with rooms := aeraseKey w.rooms t.roomId,
               detached := (room.objId, room.clients) :: w.detached }
    | none => w
  else w

/-- Fire every pending timer whose deadline has passed, in scheduling
order, before the next event is processed. -/
def fireDueTimers (w : World) (now : Nat) : World :=
  let due := w.timers.filter (fun t => t.fireAt ≤ now)
  let rest := w.timers.filter (fun t => ¬ (t.fireAt ≤ now))
  due.foldl fireTimer { w with timers := rest }

/-! ## Event traces -/

inductive ServerEvent where
  | join : String → JoinPayload → ServerEvent
  | cursorMove : String → CursorPayload → ServerEvent
  | drawing : String → DrawPayload → ServerEvent
  | canvasState : String → CanvasStatePayload → ServerEvent
  | requestState : String → String → ServerEvent
  | clearCanvas : String → String → ServerEvent
  | disconnect : String → ServerEvent
  deriving DecidableEq, Repr

def handleEvent (w : World) (now : Nat) : ServerEvent → World × List Emission
  | ServerEvent.join sock p => handleJoin w now sock p
  | ServerEvent.cursorMove sock p => handleCursorMove w sock p
  | ServerEvent.drawing sock d => handleDrawing w sock d
  | ServerEvent.canvasState sock p => handleCanvasState w now sock p
  | ServerEvent.requestState sock r => handleRequestState w sock r
  | ServerEvent.clearCanvas sock r => handleClearCanvas w sock r
  | ServerEvent.disconnect sock => handleDisconnect w now sock

/-- Process one timestamped event: due timers fire first, then the
handler runs. -/
def stepAt (w : World) (now : Nat) (e : ServerEvent) : World × List Emission :=
  handleEvent (fireDueTimers w now) now e

def runTrace (w : World) : List (Nat × ServerEvent) → World
  | [] => w
  | (t, e) :: rest => runTrace (stepAt w t e).1 rest

/-! ## Client drawing engine (src/Client/canvas.js, CanvasManager) -/

structure Pos where
  x : Int
  y : Int
  deriving DecidableEq, Repr

/-- One rendered line segment on a canvas layer.  `erase` records that
the segment was stroked with `destination-out` compositing. -/
structure Seg where
  p1 : Pos
  p2 : Pos
  erase : Bool
  color : String
  width : Nat
  deriving DecidableEq, Repr

/-- A canvas raster, represented by the segments drawn on it;
`toDataURL` snapshots are this value. -/
abbrev Surface := List Seg

/-- The object passed to `onStateChange('draw', ...)` by
`emitDrawEvent` and received back by `applyRemoteDrawing`:
`{type, pos, mode, color, width}`. -/
structure DrawEmit where
  dtype : String
  pos : Pos
  mode : String
  color : String
  width : Nat
  deriving DecidableEq, Repr

/-- `CanvasManager` state.  `gestureErase/gestureColor/gestureWidth` are
the `userCtx` stroke settings, fixed by `handlePointerDown` from the
mode at gesture start; `remoteLast` is the `remoteCtx` current path
point. -/
structure CanvasM where
  drawing : Bool
  captured : Bool
  mode : String
  strokeColor : String
  lineWidth : Nat
  lastPos : Pos
  gestureErase : Bool
  gestureColor : String
  gestureWidth : Nat
  surface : Surface
  remoteSurface : Surface
  remoteLast : Pos
  undoStack : List Surface
  redoStack : List Surface
  deriving DecidableEq, Repr

/-- `MAX_STACK`. -/
def maxStack : Nat := 50

/-- `pushUndo` body on the stack: `if (length >= MAX_STACK) shift();
push(toDataURL())`. -/
def pushUndoStack (stk : List Surface) (surf : Surface) : List Surface :=
  (if maxStack ≤ stk.length then stk.drop 1 else stk) ++ [surf]

def CanvasM.pushUndo (st : CanvasM) : CanvasM :=
  { st with undoStack := pushUndoStack st.undoStack st.surface }

/-- `handlePointerDown`: non-primary buttons return early; otherwise
capture the pointer, push the current surface onto undo, enter the
drawing state, fix the ctx stroke settings from the current mode, and
emit `start` only in brush mode. -/
def handlePointerDown (st : CanvasM) (pos : Pos) (button : Nat) :
    CanvasM × List DrawEmit :=
  if button ≠ 0 then (st, [])
  else
    let st1 := st.pushUndo
    let st2 := { st1 with
      captured := true, drawing := true, lastPos := pos,
      gestureErase := st1.mode == "eraser",
      gestureColor := if st1.mode == "eraser" then "rgba(0,0,0,1)" else st1.strokeColor,
      gestureWidth := st1.lineWidth }
    (st2, if st2.mode == "brush"
          then [⟨"start", pos, st2.mode, st2.strokeColor, st2.lineWidth⟩]
          else [])

/-- `handlePointerMove`: ignored unless drawing; strokes a segment with
the ctx settings fixed at gesture start, and emits `move` only when the
current mode is brush. -/
def handlePointerMove (st : CanvasM) (pos : Pos) : CanvasM × List DrawEmit :=
  if !st.drawing then (st, [])
  else
    let st1 := { st with
      surface := st.surface ++ [⟨st.lastPos, pos, st.gestureErase, st.gestureColor, st.gestureWidth⟩],
      lastPos := pos }
    (st1, if st1.mode == "brush"
          then [⟨"move", pos, st1.mode, st1.strokeColor, st1.lineWidth⟩]
          else [])

/-- `handlePointerUp` (also wired to `pointercancel`): ignored unless
drawing; leaves the drawing state, clears the redo stack, releases the
pointer capture, and emits `end` only in brush mode. -/
def handlePointerUp (st : CanvasM) : CanvasM × List DrawEmit :=
  if !st.drawing then (st, [])
  else
    let st1 := { st with drawing := false, redoStack := [], captured := false }
    (st1, if st1.mode == "brush"
          then [⟨"end", st1.lastPos, st1.mode, st1.strokeColor, st1.lineWidth⟩]
          else [])

/-- `undo()`: push the current surface onto redo, pop the last undo
entry, restore it (`applyDataUrl` modelled as a synchronous restore). -/
def CanvasM.undo (st : CanvasM) : CanvasM × Bool :=
  match st.undoStack.getLast? with
  | none => (st, false)
  | some d =>
    ({ st with redoStack := st.redoStack ++ [st.surface],
               undoStack := st.undoStack.dropLast,
               surface := d }, true)

/-- `redo()`: mirror image of `undo()`; note the push onto the undo
stack is not bounds-checked. -/
def CanvasM.redo (st : CanvasM) : CanvasM × Bool :=
  match st.redoStack.getLast? with
  | none => (st, false)
  | some d =>
    ({ st with undoStack := st.undoStack ++ [st.surface],
               redoStack := st.redoStack.dropLast,
               surface := d }, true)

/-- `clear()`: push undo, blank the user surface, drop the redo stack. -/
def CanvasM.clearCanvas (st : CanvasM) : CanvasM :=
  { st.pushUndo with surface := [], redoStack := [] }

/-- `applyRemoteDrawing`: eraser-mode events return immediately;
otherwise `start` begins a path, `move` strokes a segment onto the
remote layer, `end` closes the path. -/
def applyRemoteDrawing (st : CanvasM) (d : DrawEmit) : CanvasM :=
  if d.mode == "eraser" then st
  else if d.dtype == "start" then { st with remoteLast := d.pos }
  else if d.dtype == "move" then
    { st with remoteSurface := st.remoteSurface ++ [⟨st.remoteLast, d.pos, false, d.color, d.width⟩],
              remoteLast := d.pos }
  else st

def initCanvas : CanvasM :=
  { drawing := false, captured := false, mode := "brush",
    strokeColor := "#000000", lineWidth := 5, lastPos := ⟨0, 0⟩,
    gestureErase := false, gestureColor := "#000000", gestureWidth := 5,
    surface := [], remoteSurface := [], remoteLast := ⟨0, 0⟩,
    undoStack := [], redoStack := [] }

/-! ## Client input sequences -/

inductive PtrEvent where
  | down : Pos → Nat → PtrEvent
  | move : Pos → PtrEvent
  | up : PtrEvent
  | cancel : PtrEvent
  deriving DecidableEq, Repr

def stepPtr (st : CanvasM) : PtrEvent → CanvasM × List DrawEmit
  | PtrEvent.down p b => handlePointerDown st p b
  | PtrEvent.move p => handlePointerMove st p
  | PtrEvent.up => handlePointerUp st
  | PtrEvent.cancel => handlePointerUp st

def runPtr (st : CanvasM) : List PtrEvent → CanvasM × List DrawEmit
  | [] => (st, [])
  | e :: es =>
    let r1 := stepPtr st e
    let r2 := runPtr r1.1 es
    (r2.1, r1.2 ++ r2.2)

/-- The client operations named by the history claims: raw gesture
begin/end (pointer events) plus the undo/redo/clear buttons. -/
inductive ClientOp where
  | ptr : PtrEvent → ClientOp
  | undoOp : ClientOp
  | redoOp : ClientOp
  | clearOp : ClientOp
  deriving DecidableEq, Repr

def stepOp (st : CanvasM) : ClientOp → CanvasM
  | ClientOp.ptr e => (stepPtr st e).1
  | ClientOp.undoOp => st.undo.1
  | ClientOp.redoOp => st.redo.1
  | ClientOp.clearOp => st.clearCanvas

def runOps (st : CanvasM) : List ClientOp → CanvasM
  | [] => st
  | op :: ops => runOps (stepOp st op) ops

/-- Client operations with gestures taken as atomic begin-end pairs
(undo/redo/clear never interleaved into an active gesture). -/
inductive NestedOp where
  | gesture : Pos → NestedOp
  | nUndo : NestedOp
  | nRedo : NestedOp
  | nClear : NestedOp
  deriving DecidableEq, Repr

def stepNested (st : CanvasM) : NestedOp → CanvasM
  | NestedOp.gesture p => runOps st [ClientOp.ptr (PtrEvent.down p 0), ClientOp.ptr PtrEvent.up]
  | NestedOp.nUndo => st.undo.1
  | NestedOp.nRedo => st.redo.1
  | NestedOp.nClear => st.clearCanvas

def runNested (st : CanvasM) : List NestedOp → CanvasM
  | [] => st
  | op :: ops => runNested (stepNested st op) ops

/-! ## Snapshot-store operation sequences (for the version claims) -/

inductive DsmOp where
  | save : String → DsmOp
  | clearSnap : DsmOp
  deriving DecidableEq, Repr

/-- Versions stored by each successive `saveState` while running a
sequence of save/clear operations on one room. -/
def dsmVersions (states : List (String × CanvasState)) (r : String) :
    List DsmOp → List Nat
  | [] => []
  | DsmOp.save d :: ops =>
    let s1 := saveState states r d 0
    ((alookup s1 r).map CanvasState.version).getD 0 :: dsmVersions s1 r ops
  | DsmOp.clearSnap :: ops => dsmVersions (clearState states r) r ops

/-! ## Concrete scenarios -/

def c1w0 : World := runTrace World.init
  [(0, ServerEvent.join "s1" ⟨"A", "u1", "n1", "c1"⟩),
   (0, ServerEvent.join "s2" ⟨"B", "u2", "n2", "c2"⟩)]

def c1res : World × List Emission :=
  stepAt c1w0 1 (ServerEvent.canvasState "s1" ⟨"B", "X"⟩)

def c2w : World := runTrace World.init
  [(0, ServerEvent.join "s1" ⟨"B", "u1", "n", "c"⟩),
   (1, ServerEvent.canvasState "s1" ⟨"B", "snap"⟩),
   (1000, ServerEvent.disconnect "s1")]

def c2joinEarly : World × List Emission :=
  stepAt c2w 31000 (ServerEvent.join "s2" ⟨"B", "u2", "n", "c"⟩)

def c2joinLate : World × List Emission :=
  stepAt c2w 91000 (ServerEvent.join "s2" ⟨"B", "u2", "n", "c"⟩)

def c3w : World := runTrace World.init [(0, ServerEvent.join "s1" ⟨"A", "u1", "n", "c"⟩)]

def c3res : World × List Emission := stepAt c3w 1 (ServerEvent.clearCanvas "s1" "A")

def c5w : World := runTrace World.init
  [(0, ServerEvent.join "s1" ⟨"A", "u1", "n", "c1"⟩),
   (0, ServerEvent.join "s2" ⟨"A", "u2", "n", "c2"⟩)]

/-- Two connections joined to the room named `""` — `join-room` accepts
it, creates the room, and registers both members. -/
def c5emptyW : World := runTrace World.init
  [(0, ServerEvent.join "s1" ⟨"", "u1", "n", "c1"⟩),
   (0, ServerEvent.join "s2" ⟨"", "u2", "n", "c2"⟩)]

def c6ops : List ClientOp :=
  (List.replicate 50 [ClientOp.ptr (PtrEvent.down ⟨0, 0⟩ 0), ClientOp.ptr PtrEvent.up]).flatten
    ++ [ClientOp.undoOp, ClientOp.ptr (PtrEvent.down ⟨0, 0⟩ 0), ClientOp.redoOp]

def c7st : CanvasM := runOps initCanvas
  [ClientOp.ptr (PtrEvent.down ⟨0, 0⟩ 0), ClientOp.ptr PtrEvent.up, ClientOp.undoOp]


/-- `DrawingStateManager` current version for a room (0 when no
snapshot is stored, like `states.get(roomId)?.version || 0`). -/
def curVer (states : List (String × CanvasState)) (r : String) : Nat :=
  ((alookup states r).map CanvasState.version).getD 0

/-- An emission whose recipients all lie inside room `R` (or are the
sender alone). -/
def emissionScoped (R : String) (em : Emission) : Prop :=
  match em.target with
  | Target.senderOnly => True
  | Target.roomExceptSender r => r = R
  | Target.roomAll r => r = R

/-- Server state changed at most under room key `R`: every other room
key maps as before, and the room-independent fields are untouched. -/
def isolatedTo (R : String) (w w2 : World) : Prop :=
  (∀ k, k ≠ R → alookup w2.rooms k = alookup w.rooms k) ∧
  (∀ k, k ≠ R → alookup w2.states k = alookup w.states k) ∧
  w2.counters = w.counters ∧ w2.conns = w.conns ∧
  w2.sioRooms = w.sioRooms ∧ w2.timers = w.timers

def eraserCanvas : CanvasM := { initCanvas with mode := "eraser" }

/-! # Theorems -/

theorem alookup_aset_self {α : Type} (l : List (String × α)) (k : String) (v : α) :
    alookup (aset l k v) k = some v := by
  induction l with
  | nil => simp [aset, alookup]
  | cons h t ih =>
    by_cases hk : h.1 = k
    · simp [aset, hk, alookup]
    · simp [aset, hk, alookup, ih]

theorem alookup_aset_ne {α : Type} (l : List (String × α)) (k k2 : String) (v : α)
    (h : k2 ≠ k) : alookup (aset l k v) k2 = alookup l k2 := by
  have hk2 : k ≠ k2 := Ne.symm h
  induction l with
  | nil => simp [aset, alookup, hk2]
  | cons hd t ih =>
    by_cases hk : hd.1 = k
    · simp [aset, hk, alookup, hk2]
    · simp [aset, hk, alookup, ih]

theorem alookup_aeraseKey_self {α : Type} (l : List (String × α)) (k : String) :
    alookup (aeraseKey l k) k = none := by
  induction l with
  | nil => simp [aeraseKey, alookup]
  | cons hd t ih =>
    by_cases hk : hd.1 = k
    · simpa [aeraseKey, hk] using ih
    · simpa [aeraseKey, alookup, hk] using ih

theorem alookup_aeraseKey_ne {α : Type} (l : List (String × α)) (k k2 : String)
    (h : k2 ≠ k) : alookup (aeraseKey l k) k2 = alookup l k2 := by
  have hk2k : k ≠ k2 := Ne.symm h
  induction l with
  | nil => simp [aeraseKey, alookup]
  | cons hd t ih =>
    by_cases hk : hd.1 = k
    · simpa [aeraseKey, alookup, hk, hk2k] using ih
    · by_cases hk2 : hd.1 = k2
      · simp [aeraseKey, alookup, hk, hk2, h]
      · simpa [aeraseKey, alookup, hk, hk2] using ih

theorem curVer_saveState (states : List (String × CanvasState)) (r d : String)
    (now : Nat) : curVer (saveState states r d now) r = curVer states r + 1 := by
  simp [curVer, saveState, alookup_aset_self]

theorem dsmVersions_save_cons (states : List (String × CanvasState)) (r d : String)
    (ops : List DsmOp) :
    dsmVersions states r (DsmOp.save d :: ops) =
      (curVer states r + 1) :: dsmVersions (saveState states r d 0) r ops := by
  show curVer (saveState states r d 0) r :: _ = _
  rw [curVer_saveState]

theorem dsmVersions_chain (r : String) (ds : List String) :
    ∀ states, List.Chain' (· < ·) (dsmVersions states r (ds.map DsmOp.save)) := by
  induction ds with
  | nil => intro states; simp [dsmVersions]
  | cons d ds ih =>
    intro states
    rw [List.map_cons, dsmVersions_save_cons, List.chain'_cons']
    refine ⟨?_, ih _⟩
    intro b hb
    cases ds with
    | nil => simp [dsmVersions] at hb
    | cons d2 ds2 =>
      rw [List.map_cons, dsmVersions_save_cons] at hb
      simp at hb
      rw [← hb, curVer_saveState]
      omega

/-- C4 (counterexample): after `save; clear; save` on one room the two
saves store versions `[1, 1]` — a clear resets the version counter, so
the version is not strictly monotone across all of a room's saves. -/
theorem C4_version_reset_counterexample :
    dsmVersions [] "r" [DsmOp.save "a", DsmOp.clearSnap, DsmOp.save "b"] = [1, 1] ∧
    ¬ List.Chain' (· < ·)
        (dsmVersions [] "r" [DsmOp.save "a", DsmOp.clearSnap, DsmOp.save "b"]) := by
  have h : dsmVersions [] "r" [DsmOp.save "a", DsmOp.clearSnap, DsmOp.save "b"] = [1, 1] := by
    decide
  refine ⟨h, ?_⟩
  rw [h]
  simp [List.chain'_cons]

/-- C4 (amended): each `saveState` stores version `previous + 1` (`1`
when no snapshot exists), so the version is strictly monotone across a
room's saves not separated by a `clearState`. -/
theorem C4_version_monotone :
    (∀ (states : List (String × CanvasState)) (r d : String) (now : Nat),
      (alookup (saveState states r d now) r).map CanvasState.version =
        some (curVer states r + 1)) ∧
    (∀ (states : List (String × CanvasState)) (r : String) (ds : List String),
      List.Chain' (· < ·) (dsmVersions states r (ds.map DsmOp.save))) := by
  constructor
  · intro states r d now
    simp [saveState, alookup_aset_self, curVer]
  · intro states r ds
    exact dsmVersions_chain r ds states

/-- C3 (counterexample): a member of room `A` requests a clear; the
`clear-canvas` directive is emitted with `io.to(roomId)` and is
delivered back to the originating connection `s1`. -/
theorem C3_clear_echo_counterexample :
    (connOf c3w "s1").currentRoom = some "A" ∧
    (sioOf c3w "s1").contains "A" = true ∧
    c3res.2.any (fun em => em.event == "clear-canvas" && deliveredTo c3res.1 em "s1") = true := by
  decide

/-- C3 (amended): a clear request removes the room's stored snapshot and
forwards a single clear directive to all members of the room, the
originating connection included (it is delivered to exactly the room's
members). -/
theorem C3_clear_broadcast (w : World) (sock roomId : String) :
    (handleClearCanvas w sock roomId).1.states = clearState w.states roomId ∧
    alookup (handleClearCanvas w sock roomId).1.states roomId = none ∧
    (handleClearCanvas w sock roomId).2 =
      [⟨sock, Target.roomAll roomId, "clear-canvas",
        EPayload.clearFwd (connOf w sock).currentUserId⟩] ∧
    (∀ c : String,
      deliveredTo (handleClearCanvas w sock roomId).1
        ⟨sock, Target.roomAll roomId, "clear-canvas",
          EPayload.clearFwd (connOf w sock).currentUserId⟩ c
        = (sioOf w c).contains roomId) := by
  refine ⟨rfl, ?_, rfl, ?_⟩
  · exact alookup_aeraseKey_self w.states roomId
  · intro c
    rfl

/-- C5 (counterexample): two connections join the room named `""` (the
join handler creates it and registers both members), yet a stroke from
one is dropped entirely — `if (!currentRoom) return` is a JS falsy
test and `""` is falsy — so the event reaches no other member of this
2-member room, refuting delivery "for any room size ≥ 2". -/
theorem C5_empty_room_counterexample :
    (connOf c5emptyW "s1").currentRoom = some "" ∧
    (sioOf c5emptyW "s1").contains "" = true ∧
    (sioOf c5emptyW "s2").contains "" = true ∧
    handleDrawing c5emptyW "s1" ⟨"start", "p", "brush", "#000000", 5, none, none⟩
      = (c5emptyW, []) := by
  decide

/-- C5 (amended): a `drawing` event from a connection whose joined room
`R` is truthy (nonempty id) changes no server state and is broadcast
with `socket.to(R)`: it is delivered to every other connection in room
`R` and never back to the sender; for the falsy room `""` the event is
dropped. -/
theorem C5_stroke_broadcast (w : World) (sock : String) (d : DrawPayload)
    (R : String) (h : (connOf w sock).currentRoom = some R) (hR : R ≠ "") :
    (handleDrawing w sock d).1 = w ∧
    (handleDrawing w sock d).2 =
      [⟨sock, Target.roomExceptSender R, "drawing",
        EPayload.drawingFwd ⟨d.dtype, d.pos, d.mode, d.color, d.width,
          (connOf w sock).currentUserId, sock⟩⟩] ∧
    (∀ c : String, c ≠ sock → R ∈ sioOf w c →
      deliveredTo w ⟨sock, Target.roomExceptSender R, "drawing",
        EPayload.drawingFwd ⟨d.dtype, d.pos, d.mode, d.color, d.width,
          (connOf w sock).currentUserId, sock⟩⟩ c = true) ∧
    deliveredTo w ⟨sock, Target.roomExceptSender R, "drawing",
      EPayload.drawingFwd ⟨d.dtype, d.pos, d.mode, d.color, d.width,
        (connOf w sock).currentUserId, sock⟩⟩ sock = false := by
  have htr : truthyStr (connOf w sock).currentRoom = some R := by
    rw [h]; simp [truthyStr, hR]
  refine ⟨?_, ?_, ?_, ?_⟩
  · unfold handleDrawing; rw [htr]
  · unfold handleDrawing; rw [htr]
  · intro c hc hcon
    simp [deliveredTo, hc, hcon]
  · simp [deliveredTo]

theorem C5_stroke_broadcast_witness :
    (handleDrawing c5w "s1" ⟨"start", "p", "brush", "#000000", 5, none, none⟩).1 = c5w ∧
    deliveredTo c5w ⟨"s1", Target.roomExceptSender "A", "drawing",
      EPayload.drawingFwd ⟨"start", "p", "brush", "#000000", 5,
        (connOf c5w "s1").currentUserId, "s1"⟩⟩ "s2" = true ∧
    deliveredTo c5w ⟨"s1", Target.roomExceptSender "A", "drawing",
      EPayload.drawingFwd ⟨"start", "p", "brush", "#000000", 5,
        (connOf c5w "s1").currentUserId, "s1"⟩⟩ "s1" = false := by
  have h := C5_stroke_broadcast c5w "s1" ⟨"start", "p", "brush", "#000000", 5, none, none⟩
    "A" (by decide) (by decide)
  exact ⟨h.1, h.2.2.1 "s2" (by decide) (by decide), h.2.2.2⟩

theorem connOf_handleJoin (w : World) (now : Nat) (sock : String) (j : JoinPayload) :
    (connOf (handleJoin w now sock j).1 sock).currentRoom = some j.roomId ∧
    (connOf (handleJoin w now sock j).1 sock).currentUserId = some j.userId := by
  constructor <;> simp [handleJoin, connOf, alookup_aset_self]

/-- C9: the forwarded `drawing` message carries
`userId = currentUserId`, the value recorded when the sender joined;
two payloads from the same connection that differ only in their
sender-supplied `userId` field produce identical handler outputs (for
the falsy room `""` both are dropped, identically), and whenever a
stroke is forwarded its userId is the one stamped at join. -/
theorem C9_userid_stamped (w : World) (now : Nat) (sock : String) (j : JoinPayload)
    (d1 d2 : DrawPayload)
    (h1 : d1.dtype = d2.dtype) (h2 : d1.pos = d2.pos) (h3 : d1.mode = d2.mode)
    (h4 : d1.color = d2.color) (h5 : d1.width = d2.width)
    (h6 : d1.socketId = d2.socketId) :
    handleDrawing (handleJoin w now sock j).1 sock d1 =
      handleDrawing (handleJoin w now sock j).1 sock d2 ∧
    (j.roomId ≠ "" →
      (handleDrawing (handleJoin w now sock j).1 sock d1).2 =
        [⟨sock, Target.roomExceptSender j.roomId, "drawing",
          EPayload.drawingFwd ⟨d1.dtype, d1.pos, d1.mode, d1.color, d1.width,
            some j.userId, sock⟩⟩]) := by
  have hr := (connOf_handleJoin w now sock j).1
  have hu := (connOf_handleJoin w now sock j).2
  constructor
  · unfold handleDrawing
    rw [hr]
    by_cases hR : j.roomId = ""
    · simp [truthyStr, hR]
    · simp only [truthyStr, if_neg hR]
      rw [h1, h2, h3, h4, h5]
  · intro hR
    unfold handleDrawing
    rw [hr]
    simp only [truthyStr, if_neg hR]
    rw [hu]

theorem C9_userid_stamped_witness :
    handleDrawing (handleJoin World.init 0 "s1" ⟨"A", "u1", "n", "c"⟩).1 "s1"
        ⟨"start", "p", "brush", "#000000", 5, some "forged", none⟩ =
      handleDrawing (handleJoin World.init 0 "s1" ⟨"A", "u1", "n", "c"⟩).1 "s1"
        ⟨"start", "p", "brush", "#000000", 5, none, none⟩ ∧
    (handleDrawing (handleJoin World.init 0 "s1" ⟨"A", "u1", "n", "c"⟩).1 "s1"
        ⟨"start", "p", "brush", "#000000", 5, some "forged", none⟩).2 =
      [⟨"s1", Target.roomExceptSender "A", "drawing",
        EPayload.drawingFwd ⟨"start", "p", "brush", "#000000", 5, some "u1", "s1"⟩⟩] := by
  have h := C9_userid_stamped World.init 0 "s1" ⟨"A", "u1", "n", "c"⟩
    ⟨"start", "p", "brush", "#000000", 5, some "forged", none⟩
    ⟨"start", "p", "brush", "#000000", 5, none, none⟩
    rfl rfl rfl rfl rfl rfl
  exact ⟨h.1, h.2 (by decide)⟩

/-- C10: a connection whose `currentRoom` is still unset has its
`drawing` and `cursor-move` messages dropped: no state change and no
emission. -/
theorem C10_unjoined_dropped (w : World) (sock : String) (d : DrawPayload)
    (cp : CursorPayload) (h : (connOf w sock).currentRoom = none) :
    handleDrawing w sock d = (w, []) ∧ handleCursorMove w sock cp = (w, []) := by
  constructor
  · unfold handleDrawing; rw [h]; rfl
  · unfold handleCursorMove; rw [h]; rfl

theorem C10_unjoined_dropped_witness :
    handleDrawing World.init "s9" ⟨"start", "p", "brush", "#000000", 5, none, none⟩ =
      (World.init, []) ∧
    handleCursorMove World.init "s9" ⟨"A", "u", "p"⟩ = (World.init, []) :=
  C10_unjoined_dropped World.init "s9"
    ⟨"start", "p", "brush", "#000000", 5, none, none⟩ ⟨"A", "u", "p"⟩ rfl

theorem pushUndoStack_length (stk : List Surface) (s : Surface) :
    (pushUndoStack stk s).length =
      if maxStack ≤ stk.length then stk.length else stk.length + 1 := by
  by_cases h : maxStack ≤ stk.length
  · simp only [pushUndoStack, if_pos h, List.length_append, List.length_drop,
      List.length_singleton]
    have : 1 ≤ stk.length := le_trans (by norm_num [maxStack]) h
    omega
  · simp [pushUndoStack, h]

theorem stepNested_gesture (st : CanvasM) (p : Pos) :
    stepNested st (NestedOp.gesture p) =
      { st with captured := false, drawing := false, lastPos := p,
                gestureErase := st.mode == "eraser",
                gestureColor := if st.mode == "eraser" then "rgba(0,0,0,1)" else st.strokeColor,
                gestureWidth := st.lineWidth,
                undoStack := pushUndoStack st.undoStack st.surface,
                redoStack := [] } := by
  rfl

theorem histInv_step (st : CanvasM) (op : NestedOp)
    (h : st.undoStack.length + st.redoStack.length ≤ maxStack) :
    (stepNested st op).undoStack.length + (stepNested st op).redoStack.length
      ≤ maxStack := by
  cases op with
  | gesture p =>
    rw [stepNested_gesture]
    simp only [List.length_nil, Nat.add_zero, pushUndoStack_length]
    split
    · omega
    · omega
  | nUndo =>
    show (st.undo.1).undoStack.length + (st.undo.1).redoStack.length ≤ maxStack
    cases hgl : st.undoStack.getLast? with
    | none => simpa [CanvasM.undo, hgl] using h
    | some dd =>
      have hne : st.undoStack ≠ [] := by
        intro he; rw [he] at hgl; simp [List.getLast?] at hgl
      have hpos : 0 < st.undoStack.length := List.length_pos.mpr hne
      simp only [CanvasM.undo, hgl, List.length_append, List.length_dropLast,
        List.length_singleton]
      omega
  | nRedo =>
    show (st.redo.1).undoStack.length + (st.redo.1).redoStack.length ≤ maxStack
    cases hgl : st.redoStack.getLast? with
    | none => simpa [CanvasM.redo, hgl] using h
    | some dd =>
      have hne : st.redoStack ≠ [] := by
        intro he; rw [he] at hgl; simp [List.getLast?] at hgl
      have hpos : 0 < st.redoStack.length := List.length_pos.mpr hne
      simp only [CanvasM.redo, hgl, List.length_append, List.length_dropLast,
        List.length_singleton]
      omega
  | nClear =>
    show (st.clearCanvas).undoStack.length + (st.clearCanvas).redoStack.length ≤ maxStack
    simp only [CanvasM.clearCanvas, CanvasM.pushUndo, List.length_nil, Nat.add_zero,
      pushUndoStack_length]
    split
    · omega
    · omega

theorem histInv_run (ops : List NestedOp) :
    ∀ st : CanvasM, st.undoStack.length + st.redoStack.length ≤ maxStack →
      (runNested st ops).undoStack.length + (runNested st ops).redoStack.length
        ≤ maxStack := by
  induction ops with
  | nil => intro st h; exact h
  | cons op ops ih =>
    intro st h
    exact ih (stepNested st op) (histInv_step st op h)

set_option maxRecDepth 40000 in
/-- C6 (counterexample): fifty gestures fill the undo stack, then an
undo followed by a pointer-down with a redo issued before the matching
pointer-up drives the undo stack to 51 entries — `redo()` pushes the
undo stack without the MAX_STACK check, so the 50-entry bound fails for
sequences that interleave redo into an active gesture. -/
theorem C6_history_bound_counterexample :
    maxStack < (runOps initCanvas c6ops).undoStack.length := by
  decide

/-- C6 (amended): for every sequence of client operations in which
undo/redo/clear are issued only outside an active gesture, both history
stacks hold at most `MAX_STACK = 50` entries; when a push would exceed
the bound, `pushUndo` evicts the oldest entry first. -/
theorem C6_history_bound :
    (∀ ops : List NestedOp,
      (runNested initCanvas ops).undoStack.length ≤ maxStack ∧
      (runNested initCanvas ops).redoStack.length ≤ maxStack) ∧
    (∀ (stk : List Surface) (s : Surface), maxStack ≤ stk.length →
      pushUndoStack stk s = stk.drop 1 ++ [s]) := by
  constructor
  · intro ops
    have h := histInv_run ops initCanvas (by decide)
    exact ⟨by omega, by omega⟩
  · intro stk s h
    simp [pushUndoStack, h]

theorem C6_history_bound_witness :
    (runNested initCanvas [NestedOp.nUndo]).undoStack.length ≤ maxStack ∧
    pushUndoStack (List.replicate 50 ([] : Surface)) [] =
      (List.replicate 50 ([] : Surface)).drop 1 ++ [[]] :=
  ⟨(C6_history_bound.1 [NestedOp.nUndo]).1,
   C6_history_bound.2 (List.replicate 50 []) [] (by simp [maxStack])⟩

/-- C7 (counterexample): after a gesture and an undo the redo stack is
nonempty and the engine is Idle; the next pointer-down (input-begin)
leaves the redo stack exactly as it was, refuting "input-begin clears
the redo history" (the code clears it on input-end instead). -/
theorem C7_redo_clear_counterexample :
    c7st.drawing = false ∧
    c7st.redoStack ≠ [] ∧
    (handlePointerDown c7st ⟨0, 0⟩ 0).1.redoStack = c7st.redoStack := by
  decide

/-- C7 (amended): on input-begin the engine goes Idle → Active, captures
input and pushes the current surface onto the undo history, leaving the
redo history unchanged; on input-end/cancel it returns to Idle, releases
capture and clears the redo history (input-cancel runs the same handler
as input-end). -/
theorem C7_gesture_state_machine (st : CanvasM) (p : Pos) :
    (st.drawing = false →
      (handlePointerDown st p 0).1.drawing = true ∧
      (handlePointerDown st p 0).1.captured = true ∧
      (handlePointerDown st p 0).1.undoStack = pushUndoStack st.undoStack st.surface ∧
      (handlePointerDown st p 0).1.redoStack = st.redoStack) ∧
    (st.drawing = true →
      (handlePointerUp st).1.drawing = false ∧
      (handlePointerUp st).1.captured = false ∧
      (handlePointerUp st).1.redoStack = []) ∧
    stepPtr st PtrEvent.cancel = stepPtr st PtrEvent.up := by
  refine ⟨?_, ?_, rfl⟩
  · intro hIdle
    refine ⟨rfl, rfl, rfl, rfl⟩
  · intro hActive
    simp [handlePointerUp, hActive]

theorem C7_gesture_state_machine_witness :
    (handlePointerDown initCanvas ⟨0, 0⟩ 0).1.drawing = true ∧
    (handlePointerUp { initCanvas with drawing := true }).1.redoStack = [] :=
  ⟨((C7_gesture_state_machine initCanvas ⟨0, 0⟩).1 rfl).1,
   ((C7_gesture_state_machine { initCanvas with drawing := true } ⟨0, 0⟩).2.1 rfl).2.2⟩

theorem stepPtr_mode (st : CanvasM) (e : PtrEvent) : (stepPtr st e).1.mode = st.mode := by
  cases e with
  | down p b =>
    by_cases hb : b ≠ 0 <;> simp [stepPtr, handlePointerDown, hb, CanvasM.pushUndo]
  | move p =>
    cases hd : st.drawing <;> simp [stepPtr, handlePointerMove, hd]
  | up =>
    cases hd : st.drawing <;> simp [stepPtr, handlePointerUp, hd]
  | cancel =>
    cases hd : st.drawing <;> simp [stepPtr, handlePointerUp, hd]

theorem stepPtr_emits_eraser (st : CanvasM) (e : PtrEvent) (h : st.mode = "eraser") :
    (stepPtr st e).2 = [] := by
  cases e with
  | down p b =>
    by_cases hb : b ≠ 0 <;> simp [stepPtr, handlePointerDown, hb, CanvasM.pushUndo, h]
  | move p =>
    cases hd : st.drawing <;> simp [stepPtr, handlePointerMove, hd, h]
  | up =>
    cases hd : st.drawing <;> simp [stepPtr, handlePointerUp, hd, h]
  | cancel =>
    cases hd : st.drawing <;> simp [stepPtr, handlePointerUp, hd, h]

/-- C8: a gesture performed entirely in eraser mode emits no stroke
event (start/move/end) at all, and an inbound remote draw event in
eraser mode leaves the client state — in particular the remote surface —
unchanged. -/
theorem C8_erase_local_only :
    (∀ (st : CanvasM) (es : List PtrEvent), st.mode = "eraser" →
      (runPtr st es).2 = []) ∧
    (∀ (st : CanvasM) (d : DrawEmit), d.mode = "eraser" →
      applyRemoteDrawing st d = st) := by
  constructor
  · intro st es
    induction es generalizing st with
    | nil => intro _; rfl
    | cons e es ih =>
      intro h
      have h1 : (stepPtr st e).2 = [] := stepPtr_emits_eraser st e h
      have h2 : (stepPtr st e).1.mode = "eraser" := by rw [stepPtr_mode]; exact h
      simp [runPtr, h1, ih (stepPtr st e).1 h2]
  · intro st d h
    simp [applyRemoteDrawing, h]

theorem C8_erase_local_only_witness :
    (runPtr eraserCanvas [PtrEvent.down ⟨1, 2⟩ 0, PtrEvent.move ⟨3, 4⟩, PtrEvent.up]).2
      = [] ∧
    applyRemoteDrawing initCanvas ⟨"move", ⟨1, 1⟩, "eraser", "#ff0000", 3⟩ = initCanvas :=
  ⟨C8_erase_local_only.1 eraserCanvas [PtrEvent.down ⟨1, 2⟩ 0, PtrEvent.move ⟨3, 4⟩,
     PtrEvent.up] rfl,
   C8_erase_local_only.2 initCanvas ⟨"move", ⟨1, 1⟩, "eraser", "#ff0000", 3⟩ rfl⟩

/-- C1 (counterexample): connection `s1` has joined only room `A`, yet
its `canvas-state` message naming room `B` stores a snapshot under `B`
and is delivered to `s2`, a member of `B` — the payload `roomId` is
trusted, so state mutation and broadcast cross into a room the sender
did not join. -/
theorem C1_cross_room_counterexample :
    (connOf c1w0 "s1").currentRoom = some "A" ∧
    (sioOf c1w0 "s1").contains "B" = false ∧
    alookup c1w0.states "B" = none ∧
    (alookup c1res.1.states "B").isSome = true ∧
    c1res.2.any (fun em => deliveredTo c1res.1 em "s2") = true := by
  decide

/-- C1 (amended): `drawing` events are always scoped to the sender's
joined room; `cursor-move`, `canvas-state` and `clear-canvas` are scoped
to the client-supplied payload `roomId`, so their mutations and
broadcasts stay inside the joined room `R` exactly when the payload
roomId equals `R` — a forged payload roomId reaches another room. -/
theorem C1_room_scoping (w : World) (now : Nat) (sock R : String)
    (d : DrawPayload) (cp : CursorPayload) (csp : CanvasStatePayload)
    (h : (connOf w sock).currentRoom = some R) :
    ((handleDrawing w sock d).1 = w ∧
      ∀ em ∈ (handleDrawing w sock d).2, emissionScoped R em) ∧
    (cp.roomId = R →
      isolatedTo R w (handleCursorMove w sock cp).1 ∧
      ∀ em ∈ (handleCursorMove w sock cp).2, emissionScoped R em) ∧
    (csp.roomId = R →
      isolatedTo R w (handleCanvasState w now sock csp).1 ∧
      ∀ em ∈ (handleCanvasState w now sock csp).2, emissionScoped R em) ∧
    (isolatedTo R w (handleClearCanvas w sock R).1 ∧
      ∀ em ∈ (handleClearCanvas w sock R).2, emissionScoped R em) := by
  refine ⟨⟨?_, ?_⟩, ?_, ?_, ⟨?_, ?_⟩⟩
  · unfold handleDrawing
    rw [h]
    by_cases hR : R = "" <;> simp [truthyStr, hR]
  · unfold handleDrawing
    rw [h]
    by_cases hR : R = ""
    · simp [truthyStr, hR]
    · simp only [truthyStr, if_neg hR]
      intro em hem
      simp only [List.mem_singleton] at hem
      subst hem
      exact rfl
  · intro hcp
    subst hcp
    constructor
    · unfold handleCursorMove
      rw [h]
      by_cases hR : cp.roomId = ""
      · simp only [truthyStr, if_pos hR]
        exact ⟨fun k _ => rfl, fun k _ => rfl, rfl, rfl, rfl, rfl⟩
      · simp only [truthyStr, if_neg hR]
        cases hra : alookup w.rooms cp.roomId with
        | none => exact ⟨fun k _ => rfl, fun k _ => rfl, rfl, rfl, rfl, rfl⟩
        | some r =>
          exact ⟨fun k hk => alookup_aset_ne w.rooms cp.roomId k _ hk,
                 fun k _ => rfl, rfl, rfl, rfl, rfl⟩
    · unfold handleCursorMove
      rw [h]
      by_cases hR : cp.roomId = ""
      · simp [truthyStr, hR]
      · simp only [truthyStr, if_neg hR]
        intro em hem
        simp only [List.mem_singleton] at hem
        subst hem
        exact rfl
  · intro hcsp
    subst hcsp
    constructor
    · unfold handleCanvasState
      dsimp only
      cases hra : alookup w.rooms csp.roomId with
      | none =>
        exact ⟨fun k hk => alookup_aset_ne w.rooms csp.roomId k _ hk,
               fun k hk => alookup_aset_ne w.states csp.roomId k _ hk,
               rfl, rfl, rfl, rfl⟩
      | some r =>
        exact ⟨fun k hk => alookup_aset_ne w.rooms csp.roomId k _ hk,
               fun k hk => alookup_aset_ne w.states csp.roomId k _ hk,
               rfl, rfl, rfl, rfl⟩
    · intro em hem
      simp only [handleCanvasState, List.mem_singleton] at hem
      subst hem
      exact rfl
  · exact ⟨fun k _ => rfl,
           fun k hk => alookup_aeraseKey_ne w.states R k hk,
           rfl, rfl, rfl, rfl⟩
  · intro em hem
    simp only [handleClearCanvas, List.mem_singleton] at hem
    subst hem
    exact rfl

theorem C1_room_scoping_witness :
    (handleDrawing c5w "s1" ⟨"start", "p", "brush", "#000000", 5, none, none⟩).1 = c5w ∧
    isolatedTo "A" c5w (handleClearCanvas c5w "s1" "A").1 := by
  have h := C1_room_scoping c5w 0 "s1" "A"
    ⟨"start", "p", "brush", "#000000", 5, none, none⟩
    ⟨"A", "u1", "p"⟩ ⟨"A", "X"⟩ (by decide)
  exact ⟨h.1.1, h.2.2.2.1⟩

/-- C2 (counterexample): the last member of room `B` leaves at t0 = 1s
with a saved snapshot; a rejoin at t0 + 90s (after the 60s grace timer
deleted the room) does get a freshly created `Room` object, but the join
still sends the stored snapshot — deleting the room never touches the
`DrawingStateManager` store, refuting "is sent no snapshot". -/
theorem C2_snapshot_survives_counterexample :
    (alookup c2w.rooms "B").map RoomObj.objId = some 0 ∧
    (alookup c2joinLate.1.rooms "B").map RoomObj.objId = some 1 ∧
    (⟨"s2", Target.senderOnly, "canvas-state",
      EPayload.canvasStateFull "snap" 1⟩ : Emission) ∈ c2joinLate.2 := by
  decide

/-- C2 (amended): a rejoin within the 60s grace period reuses the same
`Room` object and is sent B's snapshot, and the pending timer then
leaves the repopulated room alone; after the grace period fires the
empty room is deleted, and a later rejoin gets a freshly created `Room`
object — but is still sent the old snapshot, which survives room
deletion. -/
theorem C2_grace_lifecycle :
    (alookup c2w.rooms "B").map RoomObj.objId = some 0 ∧
    c2w.timers = [⟨"B", 0, 61000⟩] ∧
    (alookup c2joinEarly.1.rooms "B").map RoomObj.objId = some 0 ∧
    (⟨"s2", Target.senderOnly, "canvas-state",
      EPayload.canvasStateFull "snap" 1⟩ : Emission) ∈ c2joinEarly.2 ∧
    (alookup (fireDueTimers c2joinEarly.1 61000).rooms "B").map RoomObj.objId = some 0 ∧
    alookup (fireDueTimers c2w 61000).rooms "B" = none ∧
    (alookup c2joinLate.1.rooms "B").map RoomObj.objId = some 1 ∧
    (⟨"s2", Target.senderOnly, "canvas-state",
      EPayload.canvasStateFull "snap" 1⟩ : Emission) ∈ c2joinLate.2 := by
  decide
